import Mathlib

/-!
Shallow embedding of the bulk HTTP dispatch pipeline of pigeonlab/notifier
(package `pkg`: `BulkHTTPClient`, `BulkRequest`; package `interr`).

Go pointers that may be nil become `Option`; the zero value of a pointer
field in a struct literal becomes `none`.  The concurrency of a run is
captured by an explicit parameter: the list of processed parcels that the
fan-in collector received before it stopped (`delivered`), in arrival order.
-/

namespace Notifier

/-- `context.Context`'s observable state as sampled by `ctx.Err()`:
`nil`, `context.Canceled` or `context.DeadlineExceeded`. -/
inductive CtxErr where
  | none
  | canceled
  | deadlineExceeded
deriving DecidableEq, Repr

/-- A `context.Context`, reduced to what the pipeline observes of it. -/
structure Context where
  err : CtxErr
deriving DecidableEq, Repr

/-- `context.Background()`: never cancelled, no deadline. -/
def Context.background : Context := ⟨CtxErr.none⟩

/-- An `http.Request`, reduced to an opaque payload plus the context
attached to it (`req.Context()`); `WithContext` replaces the context on a
copy of the request. -/
structure Request where
  payload : String
  ctx : Option Context
deriving DecidableEq, Repr

/-- `(*http.Request).WithContext(ctx)`: a shallow copy of the request
carrying the given context. -/
def Request.withContext (r : Request) (c : Context) : Request :=
  { r with ctx := some c }

/-- An `io.ReadCloser` response body: its byte content, whether a full
read (`ioutil.ReadAll`) fails, and whether `Close` has been called. -/
structure Body where
  bytes : String
  readErr : Option String
  closed : Bool
deriving DecidableEq, Repr

/-- `ioutil.ReadAll(body)`: the whole content, or the read failure. -/
def readAll (b : Body) : Except String String :=
  match b.readErr with
  | some e => Except.error e
  | Option.none => Except.ok b.bytes

/-- `ioutil.NopCloser(bytes.NewReader(bs))`: a fresh, replayable body over
the buffered bytes. -/
def nopCloserBody (bs : String) : Body :=
  { bytes := bs, readErr := Option.none, closed := false }

/-- `(io.Closer).Close()` on a body, as the pipeline uses it (result
discarded): the body is marked closed. -/
def Body.close (b : Body) : Body :=
  { b with closed := true }

/-- An `http.Response`, reduced to the fields the pipeline reads or
constructs: status line, status code, headers, body, request. -/
structure Response where
  status : String
  statusCode : Int
  header : List (String × String)
  body : Body
  request : Option Request
deriving DecidableEq, Repr

/-- A Go `error` value as it appears in this pipeline: either a raw
transport error from `HTTPClient.Do`, one of the sentinel errors of
package `interr`, or one of the errors built by `parseResponse`. -/
inductive GoError where
  | transport (msg : String)
  | errRequestsNotFound
  | errIgnored
  | httpClientError (msg : String)
  | noResponseReceived
  | bodyReadError (msg : String)
deriving DecidableEq, Repr

/-- `err.Error()` / the `%s` rendering of an error. -/
def GoError.message : GoError → String
  | GoError.transport m => m
  | GoError.errRequestsNotFound => "no requests provided"
  | GoError.errIgnored => "request ignored"
  | GoError.httpClientError m => "http client error: " ++ m
  | GoError.noResponseReceived => "no response received"
  | GoError.bodyReadError m => "error while reading response body: " ++ m

/-- `requestFlow`: one request's passage through the pipeline
(response-or-nil, request-or-nil, error-or-nil, original index). -/
structure RequestFlow where
  response : Option Response
  request : Option Request
  err : Option GoError
  index : Nat
deriving DecidableEq, Repr

/-- `ctx.Err() == context.Canceled || ctx.Err() == context.DeadlineExceeded`:
the cancellable scope has already ended. -/
def ctxEnded (ctx : Context) : Bool :=
  ctx.err = CtxErr.canceled || ctx.err = CtxErr.deadlineExceeded

/-- `BulkHTTPClient.parseResponse`: classifies one raw outcome into a
finalized outcome.  Struct literals `requestFlow{err: ..., index: ...}`
zero the remaining pointer fields, hence the `none`s. -/
def parseResponse (ctx : Context) (res : RequestFlow) : RequestFlow :=
  if res.err.isSome && ctxEnded ctx then
    { response := Option.none, request := Option.none,
      err := some GoError.errIgnored, index := res.index }
  else
    match res.err with
    | some e =>
        { response := Option.none, request := Option.none,
          err := some (GoError.httpClientError e.message), index := res.index }
    | Option.none =>
      match res.response with
      | Option.none =>
          { response := Option.none, request := Option.none,
            err := some GoError.noResponseReceived, index := res.index }
      | some resp =>
        match readAll resp.body with
        | Except.error e =>
            { response := Option.none, request := Option.none,
              err := some (GoError.bodyReadError e), index := res.index }
        | Except.ok bs =>
            let newResponse : Response :=
              { body := nopCloserBody bs
                statusCode := resp.statusCode
                status := resp.status
                header := resp.header
                request := res.request.map (fun r => r.withContext Context.background) }
            { response := some newResponse, request := Option.none,
              err := Option.none, index := res.index }

/-- `BulkRequest`: the batch — ordered requests, the two parallel output
slices, and the two pool sizes. -/
structure BulkRequest where
  requests : List Request
  responses : List (Option Response)
  errors : List (Option GoError)
  responseProcessorWorkers : Nat
  dispatchRequestsWorkers : Nat
deriving DecidableEq, Repr

/-- `NewBulkRequest`: fresh batch over the given requests; `errors` is the
zero value (nil slice). -/
def NewBulkRequest (requests : List Request)
    (dispatchRequestsWorkers processResponseWorkers : Nat) : BulkRequest :=
  { requests := requests
    dispatchRequestsWorkers := dispatchRequestsWorkers
    responses := []
    errors := []
    responseProcessorWorkers := processResponseWorkers }

/-- `BulkRequest.replaceResponseAtIndex`: store the response at the index
and clear the error slot. -/
def BulkRequest.replaceResponseAtIndex (b : BulkRequest)
    (response : Option Response) (index : Nat) : BulkRequest :=
  { b with responses := b.responses.set index response
           errors := b.errors.set index Option.none }

/-- `BulkRequest.replaceErrorAtIndex`: store the error at the index and
clear the response slot. -/
def BulkRequest.replaceErrorAtIndex (b : BulkRequest)
    (err : GoError) (index : Nat) : BulkRequest :=
  { b with errors := b.errors.set index (some err)
           responses := b.responses.set index Option.none }

/-- The per-index pass of `BulkRequest.addRequestIgnoredErrors`: walking
`responses` and `errors` together, an index with neither a response nor an
error gets `interr.ErrIgnored`. -/
def fillIgnored : List (Option Response) → List (Option GoError) → List (Option GoError)
  | [], errs => errs
  | _ :: _, [] => []
  | r :: rs, e :: es =>
      (if r = Option.none ∧ e = Option.none then some GoError.errIgnored else e)
        :: fillIgnored rs es

/-- `BulkRequest.addRequestIgnoredErrors`: mark every still-unresolved
index with `interr.ErrIgnored`. -/
def BulkRequest.addRequestIgnoredErrors (b : BulkRequest) : BulkRequest :=
  { b with errors := fillIgnored b.responses b.errors }

/-- `_ = response.Body.Close()` as it acts on one response: the body is
marked closed, the rest of the response is untouched. -/
def Response.closeBody (resp : Response) : Response :=
  { resp with body := resp.body.close }

/-- `BulkRequest.CloseAllResponses`: close the body of every non-nil
response slot; nil slots are skipped. -/
def BulkRequest.CloseAllResponses (b : BulkRequest) : BulkRequest :=
  { b with responses := b.responses.map (fun r => r.map Response.closeBody) }

/-- One step of `BulkHTTPClient.completionListener`'s loop body: a parcel
with a non-nil error replaces the error slot, otherwise the response slot. -/
def applyParcel (b : BulkRequest) (p : RequestFlow) : BulkRequest :=
  match p.err with
  | some e => b.replaceErrorAtIndex e p.index
  | Option.none => b.replaceResponseAtIndex p.response p.index

/-- `BulkHTTPClient.completionListener`: write every collected parcel back
into the batch by its original index (in arrival order), then mark the
unresolved indexes ignored. -/
def completionListener (b : BulkRequest) (delivered : List RequestFlow) : BulkRequest :=
  (delivered.foldl applyParcel b).addRequestIgnoredErrors

/-- `BulkHTTPClient.Do`: the entry point.  `delivered` is the arrival-order
list of processed parcels the collector gathered before it stopped (the
run's scheduling nondeterminism).  Returns the batch after the run together
with the two result slices. -/
def BulkHTTPClient.Do (ctx : Context) (bulkRequest : BulkRequest)
    (delivered : List RequestFlow) :
    BulkRequest × (List (Option Response) × List (Option GoError)) :=
  let requestsCount := bulkRequest.requests.length
  if requestsCount = 0 then
    (bulkRequest, ([], [some GoError.errRequestsNotFound]))
  else
    let b1 : BulkRequest :=
      { bulkRequest with
          responses := List.replicate requestsCount Option.none
          errors := List.replicate requestsCount Option.none
          requests := bulkRequest.requests.map (fun r => r.withContext ctx) }
    let b2 := completionListener b1 delivered
    (b2, (b2.responses, b2.errors))

/-- The pipeline's channels, named as in `workerChannels`. -/
inductive ChanId where
  | requestList
  | receivedResponses
  | processedResponses
  | collectResponses
deriving DecidableEq, Repr

/-- The observable actions of `BulkHTTPClient.orchestrateProcesses`, in
the order the (sequential) orchestrator goroutine performs them. -/
inductive OrchEvent where
  | startPublisher
  | startDispatchWorkers (n : Nat)
  | startProcessingWorkers (n : Nat)
  | waitPublish
  | waitDispatch
  | waitProcessing
  | closeChan (c : ChanId)
deriving DecidableEq, Repr

/-- `BulkHTTPClient.orchestrateProcesses` as its sequential event trace:
start the publisher and both worker pools, then wind down in three phases,
each a wait followed by closing the drained stage's output. -/
def orchestrateProcesses (b : BulkRequest) : List OrchEvent :=
  [ OrchEvent.startPublisher,
    OrchEvent.startDispatchWorkers b.dispatchRequestsWorkers,
    OrchEvent.startProcessingWorkers b.responseProcessorWorkers,
    OrchEvent.waitPublish,
    OrchEvent.closeChan ChanId.requestList,
    OrchEvent.waitDispatch,
    OrchEvent.closeChan ChanId.receivedResponses,
    OrchEvent.waitProcessing,
    OrchEvent.closeChan ChanId.processedResponses ]

/-! ### Helper lemmas -/

theorem fillIgnored_length (rs : List (Option Response)) (es : List (Option GoError)) :
    (fillIgnored rs es).length = es.length := by
  induction rs generalizing es with
  | nil => simp [fillIgnored]
  | cons r rs ih =>
    cases es with
    | nil => simp [fillIgnored]
    | cons e es => simp [fillIgnored, ih]

theorem fillIgnored_get? (rs : List (Option Response)) (es : List (Option GoError)) (i : Nat) :
    (fillIgnored rs es)[i]? =
      if rs[i]? = some Option.none ∧ es[i]? = some Option.none
      then some (some GoError.errIgnored) else es[i]? := by
  induction rs generalizing es i with
  | nil => simp [fillIgnored]
  | cons r rs ih =>
    cases es with
    | nil => cases i <;> simp [fillIgnored]
    | cons e es =>
      cases i with
      | zero =>
        by_cases h : r = Option.none ∧ e = Option.none <;> simp [fillIgnored, h]
      | succ n => simpa [fillIgnored] using ih es n

theorem applyParcel_requests (b : BulkRequest) (p : RequestFlow) :
    (applyParcel b p).requests = b.requests := by
  unfold applyParcel
  cases p.err <;> rfl

theorem applyParcel_responses_length (b : BulkRequest) (p : RequestFlow) :
    (applyParcel b p).responses.length = b.responses.length := by
  unfold applyParcel
  cases p.err <;> simp [BulkRequest.replaceErrorAtIndex, BulkRequest.replaceResponseAtIndex]

theorem applyParcel_errors_length (b : BulkRequest) (p : RequestFlow) :
    (applyParcel b p).errors.length = b.errors.length := by
  unfold applyParcel
  cases p.err <;> simp [BulkRequest.replaceErrorAtIndex, BulkRequest.replaceResponseAtIndex]

theorem foldl_applyParcel_requests (ps : List RequestFlow) (b : BulkRequest) :
    (ps.foldl applyParcel b).requests = b.requests := by
  induction ps generalizing b with
  | nil => rfl
  | cons p ps ih => simp [List.foldl_cons, ih, applyParcel_requests]

theorem foldl_applyParcel_responses_length (ps : List RequestFlow) (b : BulkRequest) :
    (ps.foldl applyParcel b).responses.length = b.responses.length := by
  induction ps generalizing b with
  | nil => rfl
  | cons p ps ih => simp [List.foldl_cons, ih, applyParcel_responses_length]

theorem foldl_applyParcel_errors_length (ps : List RequestFlow) (b : BulkRequest) :
    (ps.foldl applyParcel b).errors.length = b.errors.length := by
  induction ps generalizing b with
  | nil => rfl
  | cons p ps ih => simp [List.foldl_cons, ih, applyParcel_errors_length]

/-- Frame property of one collector write: slots at other indexes are
untouched. -/
theorem applyParcel_get?_ne (b : BulkRequest) (p : RequestFlow) (i : Nat)
    (h : i ≠ p.index) :
    (applyParcel b p).responses[i]? = b.responses[i]? ∧
    (applyParcel b p).errors[i]? = b.errors[i]? := by
  unfold applyParcel
  cases p.err <;>
    simp [BulkRequest.replaceErrorAtIndex, BulkRequest.replaceResponseAtIndex,
      List.getElem?_set_ne (Ne.symm h)]

theorem foldl_applyParcel_get?_not_mem (ps : List RequestFlow) (b : BulkRequest) (i : Nat)
    (h : i ∉ ps.map RequestFlow.index) :
    (ps.foldl applyParcel b).responses[i]? = b.responses[i]? ∧
    (ps.foldl applyParcel b).errors[i]? = b.errors[i]? := by
  induction ps generalizing b with
  | nil => exact ⟨rfl, rfl⟩
  | cons p ps ih =>
    simp only [List.map_cons, List.mem_cons, not_or] at h
    have step := applyParcel_get?_ne b p i h.1
    have rest := ih (applyParcel b p) h.2
    exact ⟨rest.1.trans step.1, rest.2.trans step.2⟩

/-- Collector-write invariant: the two output slices stay aligned and no
index ever holds a response and an error at the same time. -/
def neverBoth (b : BulkRequest) : Prop :=
  b.responses.length = b.errors.length ∧
  ∀ (i : Nat) (r : Response),
    b.responses[i]? = some (some r) → b.errors[i]? = some Option.none

theorem applyParcel_neverBoth (b : BulkRequest) (p : RequestFlow)
    (hb : neverBoth b) : neverBoth (applyParcel b p) := by
  obtain ⟨hlen, hinv⟩ := hb
  refine ⟨by rw [applyParcel_responses_length, applyParcel_errors_length, hlen], ?_⟩
  intro i r hi
  by_cases hidx : i = p.index
  · unfold applyParcel at hi ⊢
    cases herr : p.err with
    | some e =>
      rw [herr] at hi
      simp only [BulkRequest.replaceErrorAtIndex] at hi
      rw [hidx, List.getElem?_set_self'] at hi
      cases hres : b.responses[p.index]? with
      | none => rw [hres] at hi; cases hi
      | some v => rw [hres] at hi; cases hi
    | none =>
      rw [herr] at hi
      simp only [BulkRequest.replaceResponseAtIndex] at hi ⊢
      rw [hidx] at hi ⊢
      rcases Nat.lt_or_ge p.index b.responses.length with hlt | hge
      · exact List.getElem?_set_self (hlen ▸ hlt)
      · rw [List.set_eq_of_length_le hge, List.getElem?_eq_none (by omega)] at hi
        cases hi
  · have frame := applyParcel_get?_ne b p i hidx
    rw [frame.1] at hi
    rw [frame.2]
    exact hinv i r hi

theorem foldl_applyParcel_neverBoth (ps : List RequestFlow) (b : BulkRequest)
    (hb : neverBoth b) : neverBoth (ps.foldl applyParcel b) := by
  induction ps generalizing b with
  | nil => exact hb
  | cons p ps ih => exact ih (applyParcel b p) (applyParcel_neverBoth b p hb)

/-- With pairwise-distinct indexes, the slot at a delivered parcel's index
holds exactly that parcel's outcome, whatever the arrival order. -/
theorem foldl_applyParcel_get?_of_mem (ps : List RequestFlow) (b : BulkRequest)
    (p : RequestFlow) (hp : p ∈ ps) (hnd : (ps.map RequestFlow.index).Nodup)
    (hr : p.index < b.responses.length) (he : p.index < b.errors.length) :
    (ps.foldl applyParcel b).responses[p.index]? =
        some (if p.err.isSome then Option.none else p.response) ∧
    (ps.foldl applyParcel b).errors[p.index]? = some p.err := by
  induction ps generalizing b with
  | nil => cases hp
  | cons q qs ih =>
    simp only [List.map_cons, List.nodup_cons] at hnd
    rcases List.mem_cons.mp hp with rfl | hmem
    · have hni : p.index ∉ qs.map RequestFlow.index := hnd.1
      have hafter := foldl_applyParcel_get?_not_mem qs (applyParcel b p) p.index hni
      rw [List.foldl_cons, hafter.1, hafter.2]
      unfold applyParcel
      cases herr : p.err with
      | some e =>
        simp [BulkRequest.replaceErrorAtIndex, List.getElem?_set_self, hr, he]
      | none =>
        simp [BulkRequest.replaceResponseAtIndex, List.getElem?_set_self, hr, he]
    · rw [List.foldl_cons]
      exact ih (applyParcel b q) hmem hnd.2
        (by rw [applyParcel_responses_length]; exact hr)
        (by rw [applyParcel_errors_length]; exact he)

theorem addRequestIgnoredErrors_requests (b : BulkRequest) :
    b.addRequestIgnoredErrors.requests = b.requests := rfl

theorem addRequestIgnoredErrors_responses (b : BulkRequest) :
    b.addRequestIgnoredErrors.responses = b.responses := rfl

/-! ### Sample inputs used by the witnesses -/

/-- A concrete request, as the CLI would build one. -/
def sampleRequest : Request := { payload := "hello", ctx := Option.none }

/-- A concrete one-request batch with both pools sized 2. -/
def sampleBatch : BulkRequest := NewBulkRequest [sampleRequest] 2 2

/-- A concrete successful response. -/
def sampleResponse : Response :=
  { status := "200 OK", statusCode := 200, header := [("Content-Type", "text/plain")],
    body := { bytes := "fast", readErr := Option.none, closed := false },
    request := some sampleRequest }

/-! ### Claims -/

/-- Claim C1, counterexample at N = 0: on an empty batch, `Do` returns an
error slice of length 1 (holding `ErrRequestsNotFound`), not of length 0,
so the two returned slices do not both have length N. -/
theorem Do_lengths_counterexample :
    ¬ ((BulkHTTPClient.Do ⟨CtxErr.none⟩ (NewBulkRequest [] 1 1) []).2.2.length
        = (NewBulkRequest [] 1 1).requests.length) := by
  decide

/-- Claim C1 (amended to non-empty batches): for any batch with N ≥ 1
requests and any run, `BulkHTTPClient.Do` returns two slices each of
length exactly N. -/
theorem Do_returns_arrays_of_length_N (ctx : Context) (b : BulkRequest)
    (delivered : List RequestFlow) (h : b.requests ≠ []) :
    (BulkHTTPClient.Do ctx b delivered).2.1.length = b.requests.length ∧
    (BulkHTTPClient.Do ctx b delivered).2.2.length = b.requests.length := by
  have hn : b.requests.length ≠ 0 := by simpa [List.length_eq_zero] using h
  simp only [BulkHTTPClient.Do, if_neg hn, completionListener,
    BulkRequest.addRequestIgnoredErrors]
  constructor
  · simp [foldl_applyParcel_responses_length]
  · simp [fillIgnored_length, foldl_applyParcel_errors_length]

/-- Witness for C1: a concrete one-request batch yields slices of length 1. -/
theorem Do_returns_arrays_of_length_N_witness :
    (BulkHTTPClient.Do Context.background sampleBatch []).2.1.length
        = sampleBatch.requests.length ∧
    (BulkHTTPClient.Do Context.background sampleBatch []).2.2.length
        = sampleBatch.requests.length :=
  Do_returns_arrays_of_length_N Context.background sampleBatch [] (by decide)

/-- Claim C5: `Do` on a batch with zero requests fails immediately with
`ErrRequestsNotFound`: the batch is returned untouched (no output slices
allocated), the response slice is nil and the error slice holds only that
sentinel error. -/
theorem Do_empty_requests_not_found (ctx : Context) (b : BulkRequest)
    (delivered : List RequestFlow) (h : b.requests = []) :
    BulkHTTPClient.Do ctx b delivered
      = (b, ([], [some GoError.errRequestsNotFound])) := by
  simp [BulkHTTPClient.Do, h]

/-- Witness for C5: the concrete empty batch fails with the sentinel. -/
theorem Do_empty_requests_not_found_witness :
    BulkHTTPClient.Do ⟨CtxErr.none⟩ (NewBulkRequest [] 3 4) []
      = (NewBulkRequest [] 3 4, ([], [some GoError.errRequestsNotFound])) :=
  Do_empty_requests_not_found ⟨CtxErr.none⟩ (NewBulkRequest [] 3 4) [] rfl

/-- Claim C7: `addRequestIgnoredErrors` marks exactly the indexes where
both slots are nil with `ErrIgnored`; every other error slot, the whole
response slice, and the request list are unchanged. -/
theorem addRequestIgnoredErrors_exact (b : BulkRequest)
    (hlen : b.responses.length = b.errors.length) :
    b.addRequestIgnoredErrors.responses = b.responses ∧
    b.addRequestIgnoredErrors.requests = b.requests ∧
    ∀ i : Nat, b.addRequestIgnoredErrors.errors[i]? =
      if b.responses[i]? = some Option.none ∧ b.errors[i]? = some Option.none
      then some (some GoError.errIgnored) else b.errors[i]? :=
  have _unused := hlen
  ⟨rfl, rfl, fun i => fillIgnored_get? b.responses b.errors i⟩

/-- Witness for C7 on a two-slot batch with one unresolved index. -/
theorem addRequestIgnoredErrors_exact_witness :
    let b : BulkRequest :=
      { requests := [sampleRequest, sampleRequest]
        responses := [some sampleResponse, Option.none]
        errors := [Option.none, Option.none]
        responseProcessorWorkers := 2, dispatchRequestsWorkers := 2 }
    b.addRequestIgnoredErrors.responses = b.responses ∧
    b.addRequestIgnoredErrors.requests = b.requests ∧
    ∀ i : Nat, b.addRequestIgnoredErrors.errors[i]? =
      if b.responses[i]? = some Option.none ∧ b.errors[i]? = some Option.none
      then some (some GoError.errIgnored) else b.errors[i]? :=
  addRequestIgnoredErrors_exact _ (by decide)

/-- Events of the orchestrator's wind-down phase (the waits and closes). -/
def isWindDownEvent : OrchEvent → Bool
  | OrchEvent.waitPublish => true
  | OrchEvent.waitDispatch => true
  | OrchEvent.waitProcessing => true
  | OrchEvent.closeChan _ => true
  | _ => false

/-- Claim C9: the orchestrator's wind-down is exactly three phases in
strict order — wait for publishing then close the dispatch input, wait for
the dispatch workers then close the raw-outcome channel, wait for the
processing workers then close the finalized-outcome channel. -/
theorem orchestrate_three_phase_shutdown (b : BulkRequest) :
    (orchestrateProcesses b).filter isWindDownEvent =
      [ OrchEvent.waitPublish, OrchEvent.closeChan ChanId.requestList,
        OrchEvent.waitDispatch, OrchEvent.closeChan ChanId.receivedResponses,
        OrchEvent.waitProcessing, OrchEvent.closeChan ChanId.processedResponses ] := by
  rfl

/-- Claim C10: on a non-empty batch, `Do` replaces every request stored in
the batch with a copy carrying the client's cancellable scope, so after
the run the batch holds context-attached copies of the caller's requests. -/
theorem Do_attaches_context_to_requests (ctx : Context) (b : BulkRequest)
    (delivered : List RequestFlow) (h : b.requests ≠ []) :
    (BulkHTTPClient.Do ctx b delivered).1.requests
        = b.requests.map (fun r => r.withContext ctx) ∧
    ∀ r ∈ (BulkHTTPClient.Do ctx b delivered).1.requests, r.ctx = some ctx := by
  have hn : b.requests.length ≠ 0 := by simpa [List.length_eq_zero] using h
  simp only [BulkHTTPClient.Do, if_neg hn, completionListener,
    addRequestIgnoredErrors_requests, foldl_applyParcel_requests]
  constructor
  · trivial
  · intro r hr
    rcases List.mem_map.mp (by simpa using hr) with ⟨r0, _, rfl⟩
    rfl

/-- Witness for C10 on the concrete one-request batch and a cancelled scope. -/
theorem Do_attaches_context_to_requests_witness :
    (BulkHTTPClient.Do ⟨CtxErr.canceled⟩ sampleBatch []).1.requests
        = sampleBatch.requests.map (fun r => r.withContext ⟨CtxErr.canceled⟩) ∧
    ∀ r ∈ (BulkHTTPClient.Do ⟨CtxErr.canceled⟩ sampleBatch []).1.requests,
      r.ctx = some ⟨CtxErr.canceled⟩ :=
  Do_attaches_context_to_requests ⟨CtxErr.canceled⟩ sampleBatch [] (by decide)

/-- After the collector's writes and the ignored-error fill, every index of
an aligned, never-both batch holds exactly one populated slot. -/
theorem completionListener_exactly_one (b0 : BulkRequest) (delivered : List RequestFlow)
    (hb : neverBoth b0) (i : Nat) (hi : i < b0.responses.length) :
    ∃ r e, (completionListener b0 delivered).responses[i]? = some r ∧
           (completionListener b0 delivered).errors[i]? = some e ∧
           ((r.isSome = true ∧ e = Option.none) ∨ (r = Option.none ∧ e.isSome = true)) := by
  have hf := foldl_applyParcel_neverBoth delivered b0 hb
  set bf := delivered.foldl applyParcel b0 with hbf
  have hlenr : bf.responses.length = b0.responses.length :=
    foldl_applyParcel_responses_length delivered b0
  have hir : i < bf.responses.length := by omega
  have hie : i < bf.errors.length := by
    have := hf.1
    omega
  obtain ⟨r0, hr0⟩ : ∃ r0, bf.responses[i]? = some r0 :=
    ⟨_, List.getElem?_eq_getElem hir⟩
  obtain ⟨e0, he0⟩ : ∃ e0, bf.errors[i]? = some e0 :=
    ⟨_, List.getElem?_eq_getElem hie⟩
  simp only [completionListener, BulkRequest.addRequestIgnoredErrors,
    addRequestIgnoredErrors_responses, ← hbf]
  rw [fillIgnored_get? bf.responses bf.errors i, hr0, he0]
  cases r0 with
  | some resp =>
    have : bf.errors[i]? = some Option.none := hf.2 i resp hr0
    rw [he0] at this
    obtain rfl : e0 = Option.none := by injection this
    exact ⟨some resp, Option.none, rfl, by simp, Or.inl ⟨rfl, rfl⟩⟩
  | none =>
    cases e0 with
    | none =>
      exact ⟨Option.none, some GoError.errIgnored, rfl, by simp, Or.inr ⟨rfl, rfl⟩⟩
    | some e =>
      exact ⟨Option.none, some e, rfl, by simp, Or.inr ⟨rfl, rfl⟩⟩

/-- Claim C2: after a run of `Do` on a non-empty batch, every index in
0..N-1 holds exactly one populated slot — a response or an error, never
both, never neither. -/
theorem Do_exactly_one_populated (ctx : Context) (b : BulkRequest)
    (delivered : List RequestFlow) (hne : b.requests ≠ []) (i : Nat)
    (hi : i < b.requests.length) :
    ∃ r e, (BulkHTTPClient.Do ctx b delivered).2.1[i]? = some r ∧
           (BulkHTTPClient.Do ctx b delivered).2.2[i]? = some e ∧
           ((r.isSome = true ∧ e = Option.none) ∨ (r = Option.none ∧ e.isSome = true)) := by
  have hn : b.requests.length ≠ 0 := by simpa [List.length_eq_zero] using hne
  simp only [BulkHTTPClient.Do, if_neg hn]
  refine completionListener_exactly_one _ delivered ⟨by simp, ?_⟩ i (by simpa)
  intro j r hj
  rw [List.getElem?_replicate] at hj
  by_cases hjn : j < b.requests.length
  · rw [if_pos hjn] at hj
    cases hj
  · rw [if_neg hjn] at hj
    cases hj

/-- Witness for C2: a concrete run of the one-request batch with an empty
delivery (aborted run) leaves index 0 with an error only. -/
theorem Do_exactly_one_populated_witness :
    ∃ r e, (BulkHTTPClient.Do Context.background sampleBatch []).2.1[0]? = some r ∧
           (BulkHTTPClient.Do Context.background sampleBatch []).2.2[0]? = some e ∧
           ((r.isSome = true ∧ e = Option.none) ∨ (r = Option.none ∧ e.isSome = true)) :=
  Do_exactly_one_populated Context.background sampleBatch [] (by decide) 0 (by decide)

/-- Claim C6: the result slot at index i holds the outcome of request i,
whatever the arrival order of the delivered outcomes: for any delivered
parcel (with pipeline-shaped fields, distinct in-range indexes), the two
slices at its original index equal its response and its error. -/
theorem Do_output_matches_input_index (ctx : Context) (b : BulkRequest)
    (delivered : List RequestFlow) (hne : b.requests ≠ [])
    (hnd : (delivered.map RequestFlow.index).Nodup)
    (p : RequestFlow) (hp : p ∈ delivered)
    (hrange : p.index < b.requests.length)
    (hwf1 : p.err = Option.none → p.response.isSome = true)
    (hwf2 : ∀ e, p.err = some e → p.response = Option.none) :
    (BulkHTTPClient.Do ctx b delivered).2.1[p.index]? = some p.response ∧
    (BulkHTTPClient.Do ctx b delivered).2.2[p.index]? = some p.err := by
  have hn : b.requests.length ≠ 0 := by simpa [List.length_eq_zero] using hne
  simp only [BulkHTTPClient.Do, if_neg hn]
  have hmem := foldl_applyParcel_get?_of_mem delivered
    { b with responses := List.replicate b.requests.length Option.none
             errors := List.replicate b.requests.length Option.none
             requests := b.requests.map (fun r => r.withContext ctx) }
    p hp hnd (by simpa) (by simpa)
  simp only [completionListener, BulkRequest.addRequestIgnoredErrors,
    addRequestIgnoredErrors_responses]
  rw [fillIgnored_get?, hmem.1, hmem.2]
  cases herr : p.err with
  | some e =>
    rw [hwf2 e herr]
    exact ⟨by simp, by simp⟩
  | none =>
    obtain ⟨resp, hresp⟩ := Option.isSome_iff_exists.mp (hwf1 herr)
    rw [hresp]
    exact ⟨by simp, by simp⟩

/-- A parcel as the processing stage emits for a transport failure. -/
def sampleFlowFailure : RequestFlow :=
  { response := Option.none, request := Option.none,
    err := some (GoError.httpClientError "connection refused"), index := 0 }

/-- A parcel as the processing stage emits for a success, for request 1. -/
def sampleFlowSuccess : RequestFlow :=
  { response := some sampleResponse, request := Option.none,
    err := Option.none, index := 1 }

/-- A concrete two-request batch. -/
def sampleBatch2 : BulkRequest := NewBulkRequest [sampleRequest, sampleRequest] 2 2

/-- Witness for C6: with two requests and the outcome of request 1
arriving before the outcome of request 0, index 0 still receives request
0's outcome. -/
theorem Do_output_matches_input_index_witness :
    (BulkHTTPClient.Do Context.background sampleBatch2
        [sampleFlowSuccess, sampleFlowFailure]).2.1[sampleFlowFailure.index]?
      = some sampleFlowFailure.response ∧
    (BulkHTTPClient.Do Context.background sampleBatch2
        [sampleFlowSuccess, sampleFlowFailure]).2.2[sampleFlowFailure.index]?
      = some sampleFlowFailure.err :=
  Do_output_matches_input_index Context.background sampleBatch2
    [sampleFlowSuccess, sampleFlowFailure] (by decide) (by decide)
    sampleFlowFailure (by decide) (by decide) (by decide) (by decide)

/-- Claim C3: `parseResponse` applies its rules in order — transport error
with an already-ended scope yields `ErrIgnored`; transport error otherwise
yields a wrapping `http client error`; no error but a nil response yields
`no response received`. -/
theorem parseResponse_error_classification (ctx : Context) (res : RequestFlow) :
    (∀ e, res.err = some e → ctxEnded ctx = true →
      parseResponse ctx res =
        { response := Option.none, request := Option.none,
          err := some GoError.errIgnored, index := res.index }) ∧
    (∀ e, res.err = some e → ctxEnded ctx = false →
      parseResponse ctx res =
        { response := Option.none, request := Option.none,
          err := some (GoError.httpClientError e.message), index := res.index }) ∧
    (res.err = Option.none → res.response = Option.none →
      parseResponse ctx res =
        { response := Option.none, request := Option.none,
          err := some GoError.noResponseReceived, index := res.index }) := by
  refine ⟨?_, ?_, ?_⟩
  · intro e he hctx
    simp [parseResponse, he, hctx]
  · intro e he hctx
    simp [parseResponse, he, hctx]
  · intro he hresp
    simp [parseResponse, he, hresp]

/-- Witness for C3: the three classification rules at concrete inputs. -/
theorem parseResponse_error_classification_witness :
    parseResponse ⟨CtxErr.canceled⟩
        { response := Option.none, request := Option.none,
          err := some (GoError.transport "context canceled"), index := 3 }
      = { response := Option.none, request := Option.none,
          err := some GoError.errIgnored, index := 3 } ∧
    parseResponse ⟨CtxErr.none⟩
        { response := Option.none, request := Option.none,
          err := some (GoError.transport "connection refused"), index := 1 }
      = { response := Option.none, request := Option.none,
          err := some (GoError.httpClientError "connection refused"), index := 1 } ∧
    parseResponse ⟨CtxErr.none⟩
        { response := Option.none, request := Option.none,
          err := Option.none, index := 2 }
      = { response := Option.none, request := Option.none,
          err := some GoError.noResponseReceived, index := 2 } :=
  ⟨(parseResponse_error_classification ⟨CtxErr.canceled⟩ _).1
      (GoError.transport "context canceled") rfl rfl,
   (parseResponse_error_classification ⟨CtxErr.none⟩ _).2.1
      (GoError.transport "connection refused") rfl rfl,
   (parseResponse_error_classification ⟨CtxErr.none⟩ _).2.2 rfl rfl⟩

/-- Claim C4: on the success path `parseResponse` reads the whole body; a
failed read yields a body-read error, otherwise the outcome is a fresh
response with the original status line, code and headers, a replayable
body over the buffered bytes, a request detached from the cancellable
scope, and a nil error. -/
theorem parseResponse_success_path (ctx : Context) (res : RequestFlow) (resp : Response)
    (herr : res.err = Option.none) (hresp : res.response = some resp) :
    (∀ m, readAll resp.body = Except.error m →
       parseResponse ctx res =
         { response := Option.none, request := Option.none,
           err := some (GoError.bodyReadError m), index := res.index }) ∧
    (∀ bs, readAll resp.body = Except.ok bs →
       parseResponse ctx res =
         { response := some
             { status := resp.status, statusCode := resp.statusCode,
               header := resp.header, body := nopCloserBody bs,
               request := res.request.map (fun r => r.withContext Context.background) }
           request := Option.none, err := Option.none, index := res.index } ∧
       readAll (nopCloserBody bs) = Except.ok bs) := by
  constructor
  · intro m hm
    simp [parseResponse, herr, hresp, hm]
  · intro bs hbs
    refine ⟨?_, rfl⟩
    simp [parseResponse, herr, hresp, hbs]

/-- Witness for C4: a failing body read and a successful one, concretely. -/
theorem parseResponse_success_path_witness :
    parseResponse ⟨CtxErr.none⟩
        { response := some
            { status := "200 OK", statusCode := 200, header := [],
              body := { bytes := "", readErr := some "unexpected EOF", closed := false },
              request := Option.none }
          request := Option.none, err := Option.none, index := 0 }
      = { response := Option.none, request := Option.none,
          err := some (GoError.bodyReadError "unexpected EOF"), index := 0 } ∧
    (parseResponse ⟨CtxErr.none⟩
        { response := some sampleResponse, request := some sampleRequest,
          err := Option.none, index := 1 }
      = { response := some
            { status := "200 OK", statusCode := 200,
              header := [("Content-Type", "text/plain")], body := nopCloserBody "fast",
              request := some (sampleRequest.withContext Context.background) }
          request := Option.none, err := Option.none, index := 1 } ∧
     readAll (nopCloserBody "fast") = Except.ok "fast") :=
  ⟨(parseResponse_success_path ⟨CtxErr.none⟩ _
      { status := "200 OK", statusCode := 200, header := [],
        body := { bytes := "", readErr := some "unexpected EOF", closed := false },
        request := Option.none } rfl rfl).1 "unexpected EOF" rfl,
   (parseResponse_success_path ⟨CtxErr.none⟩ _ sampleResponse rfl rfl).2 "fast" rfl⟩

/-- Claim C8: `CloseAllResponses` marks every non-nil response body closed,
preserves nil slots, the slice length, the errors and the requests (so it
cannot fail on a partially-populated batch), and calling it twice equals
calling it once. -/
theorem CloseAllResponses_spec (b : BulkRequest) :
    ((b.CloseAllResponses).responses.length = b.responses.length ∧
     (b.CloseAllResponses).errors = b.errors ∧
     (b.CloseAllResponses).requests = b.requests) ∧
    (∀ i : Nat, b.responses[i]? = some Option.none →
       (b.CloseAllResponses).responses[i]? = some Option.none) ∧
    (∀ (i : Nat) (r : Response), b.responses[i]? = some (some r) →
       (b.CloseAllResponses).responses[i]? = some (some r.closeBody) ∧
       r.closeBody.body.closed = true) ∧
    b.CloseAllResponses.CloseAllResponses = b.CloseAllResponses := by
  refine ⟨⟨by simp [BulkRequest.CloseAllResponses], rfl, rfl⟩, ?_, ?_, ?_⟩
  · intro i hi
    simp [BulkRequest.CloseAllResponses, hi]
  · intro i r hi
    exact ⟨by simp [BulkRequest.CloseAllResponses, hi], rfl⟩
  · simp only [BulkRequest.CloseAllResponses, List.map_map]
    have hfun : ((fun r : Option Response => r.map Response.closeBody) ∘
        fun r : Option Response => r.map Response.closeBody)
        = fun r : Option Response => r.map Response.closeBody := by
      funext r
      cases r with
      | none => rfl
      | some resp => rfl
    rw [hfun]

/-- Witness for C8 on a partially-populated two-slot batch. -/
theorem CloseAllResponses_spec_witness :
    let b : BulkRequest :=
      { requests := [sampleRequest, sampleRequest]
        responses := [some sampleResponse, Option.none]
        errors := [Option.none, some GoError.errIgnored]
        responseProcessorWorkers := 2, dispatchRequestsWorkers := 2 }
    (b.CloseAllResponses.responses[1]? = some Option.none) ∧
    (b.CloseAllResponses.responses[0]? = some (some sampleResponse.closeBody) ∧
     sampleResponse.closeBody.body.closed = true) ∧
    b.CloseAllResponses.CloseAllResponses = b.CloseAllResponses := by
  refine ⟨(CloseAllResponses_spec _).2.1 1 (by decide), ?_, (CloseAllResponses_spec _).2.2.2⟩
  exact (CloseAllResponses_spec _).2.2.1 0 sampleResponse (by decide)

end Notifier
